/-
Verification of the FIRE_CP_Glimpse co-simulation orchestration layer.

This file gives a shallow embedding, in Lean 4, of the parts of the
repository that carry real invariants:

* `common/hashing.py`          — content-addressed artifact keys (SHA-256);
* `backend/fmu_runner.py`      — interface discovery and the FMI 2.0 CS
                                 lifecycle wrapper `FMI2CSRunner`;
* `deprecated/fmu_wrapper_cs.py` — the pyfmi co-simulation wrapper
                                 `FMUWrapperCS` with its per-step logs;
* `backend/rover_closed_loop_fmu.py` — the active master co-simulation loop;
* `deprecated/rover_closed_loop_fmu_fmpy.py` and `runners/run.py`
                                 — the fmpy master loop with teardown and
                                 the run driver that persists results;
* `scenario/attacks.py`        — seeded attack-state construction and the
                                 per-step override functions;
* `translator/mo_to_fmu.py`    — the cached FMU build (`build_fmu`).

Python floats are embedded as exact rationals (ℚ); external collaborators
(the OpenModelica compiler, the FMU runtime) are embedded as explicit
oracle parameters; exceptions are embedded with `Except`; filesystem state
is embedded as a partial map from paths to contents.  Theorems about the
frozen specification claims follow the definitions.
-/
import Mathlib

/-! ## Interface discovery (`backend/fmu_runner.py`, `extract_io_from_model_description`) -/

/-- Embedding of the `VarInfo` dataclass of `backend/fmu_runner.py`:
lightweight metadata for one variable of a model description.  Optional
string fields mirror Python's `Optional[str]`. -/
structure VarInfo where
  name : String
  vr : Nat
  causality : Option String
  variability : Option String
  initialKind : Option String
  typeName : String
deriving DecidableEq, Repr

/-- The four interface groups returned by
`extract_io_from_model_description`. -/
structure IOGroups where
  inputs : List VarInfo
  outputs : List VarInfo
  parameters : List VarInfo
  localVars : List VarInfo
deriving DecidableEq, Repr

/-- The `if/elif/else` classification chain of
`extract_io_from_model_description`, iterated over the variable list; the
four lists are built in iteration order, exactly as the Python loop appends. -/
def classifyVars : List VarInfo → List VarInfo × List VarInfo × List VarInfo × List VarInfo
  | [] => ([], [], [], [])
  | v :: rest =>
    let (ins, outs, pars, locs) := classifyVars rest
    if v.causality = some "input" then (v :: ins, outs, pars, locs)
    else if v.causality = some "output" then (ins, v :: outs, pars, locs)
    else if v.variability = some "parameter" ∨ v.causality = some "parameter" then
      (ins, outs, v :: pars, locs)
    else (ins, outs, pars, v :: locs)

/-- The sort key of the Python `list.sort(key=lambda x: x.name)` calls:
compare `VarInfo` records by name. -/
def nameLe (a b : VarInfo) : Prop := a.name ≤ b.name

instance : DecidableRel nameLe := fun a b => inferInstanceAs (Decidable (a.name ≤ b.name))

instance : IsTotal VarInfo nameLe := ⟨fun a b => le_total a.name b.name⟩

instance : IsTrans VarInfo nameLe := ⟨fun _ _ _ h₁ h₂ => le_trans h₁ h₂⟩

/-- Embedding of `extract_io_from_model_description`: classify every
variable by the fixed precedence chain, then sort each group by name
(the Python sort is stable; so is insertion sort). -/
def extract_io_from_model_description (vars : List VarInfo) : IOGroups :=
  { inputs := List.insertionSort nameLe (classifyVars vars).1
    outputs := List.insertionSort nameLe (classifyVars vars).2.1
    parameters := List.insertionSort nameLe (classifyVars vars).2.2.1
    localVars := List.insertionSort nameLe (classifyVars vars).2.2.2 }

/-- Boolean test for the first branch of the chain: `causality == "input"`. -/
def isInputB (v : VarInfo) : Bool := v.causality = some "input"

/-- Boolean test for the second branch: not an input, `causality == "output"`. -/
def isOutputB (v : VarInfo) : Bool :=
  ¬ v.causality = some "input" ∧ v.causality = some "output"

/-- Boolean test for the third branch: neither input nor output, and
`variability == "parameter"` or `causality == "parameter"`. -/
def isParameterB (v : VarInfo) : Bool :=
  ¬ v.causality = some "input" ∧ ¬ v.causality = some "output" ∧
    (v.variability = some "parameter" ∨ v.causality = some "parameter")

/-- Boolean test for the `else` branch (locals). -/
def isLocalB (v : VarInfo) : Bool :=
  ¬ v.causality = some "input" ∧ ¬ v.causality = some "output" ∧
    ¬ (v.variability = some "parameter" ∨ v.causality = some "parameter")

lemma classifyVars_eq_filters (vars : List VarInfo) :
    classifyVars vars =
      (vars.filter isInputB, vars.filter isOutputB,
       vars.filter isParameterB, vars.filter isLocalB) := by
  induction vars with
  | nil => rfl
  | cons w rest ih =>
    by_cases h1 : w.causality = some "input"
    · simp [classifyVars, ih, List.filter_cons, isInputB, isOutputB, isParameterB, isLocalB, h1]
    · by_cases h2 : w.causality = some "output"
      · simp [classifyVars, ih, List.filter_cons, isInputB, isOutputB, isParameterB, isLocalB,
          h1, h2]
      · by_cases h3 : w.variability = some "parameter" ∨ w.causality = some "parameter"
        · simp [classifyVars, ih, List.filter_cons, isInputB, isOutputB, isParameterB, isLocalB,
            h1, h2, h3]
        · simp [classifyVars, ih, List.filter_cons, isInputB, isOutputB, isParameterB, isLocalB,
            h1, h2, h3]

/-- The four example descriptors of the specification's testable property:
`{name:"a",causality:"input"}`. -/
def exDescA : VarInfo :=
  { name := "a", vr := 0, causality := some "input", variability := none,
    initialKind := none, typeName := "real" }

/-- `{name:"b",causality:"output"}`. -/
def exDescB : VarInfo :=
  { name := "b", vr := 1, causality := some "output", variability := none,
    initialKind := none, typeName := "real" }

/-- `{name:"c",variability:"parameter"}`. -/
def exDescC : VarInfo :=
  { name := "c", vr := 2, causality := none, variability := some "parameter",
    initialKind := none, typeName := "real" }

/-- `{name:"d",causality:"local"}`. -/
def exDescD : VarInfo :=
  { name := "d", vr := 3, causality := some "local", variability := none,
    initialKind := none, typeName := "real" }

/-- C4: interface discovery classifies every variable by the fixed
precedence chain (input; else output; else parameter by variability or
causality; else local), returns each group sorted lexicographically by
name, and on the four example descriptors yields inputs=["a"],
outputs=["b"], parameters=["c"], locals=["d"]. -/
theorem C4_interface_discovery_classification :
    (∀ (vars : List VarInfo),
      (∀ v, v ∈ (extract_io_from_model_description vars).inputs ↔
          v ∈ vars ∧ isInputB v = true) ∧
      (∀ v, v ∈ (extract_io_from_model_description vars).outputs ↔
          v ∈ vars ∧ isOutputB v = true) ∧
      (∀ v, v ∈ (extract_io_from_model_description vars).parameters ↔
          v ∈ vars ∧ isParameterB v = true) ∧
      (∀ v, v ∈ (extract_io_from_model_description vars).localVars ↔
          v ∈ vars ∧ isLocalB v = true) ∧
      (extract_io_from_model_description vars).inputs.Sorted nameLe ∧
      (extract_io_from_model_description vars).outputs.Sorted nameLe ∧
      (extract_io_from_model_description vars).parameters.Sorted nameLe ∧
      (extract_io_from_model_description vars).localVars.Sorted nameLe) ∧
    extract_io_from_model_description [exDescA, exDescB, exDescC, exDescD] =
      { inputs := [exDescA], outputs := [exDescB],
        parameters := [exDescC], localVars := [exDescD] } := by
  constructor
  · intro vars
    refine ⟨?_, ?_, ?_, ?_, ?_, ?_, ?_, ?_⟩
    · intro v
      rw [show (extract_io_from_model_description vars).inputs =
            List.insertionSort nameLe (classifyVars vars).1 from rfl,
        (List.perm_insertionSort nameLe _).mem_iff, classifyVars_eq_filters,
        List.mem_filter]
    · intro v
      rw [show (extract_io_from_model_description vars).outputs =
            List.insertionSort nameLe (classifyVars vars).2.1 from rfl,
        (List.perm_insertionSort nameLe _).mem_iff, classifyVars_eq_filters,
        List.mem_filter]
    · intro v
      rw [show (extract_io_from_model_description vars).parameters =
            List.insertionSort nameLe (classifyVars vars).2.2.1 from rfl,
        (List.perm_insertionSort nameLe _).mem_iff, classifyVars_eq_filters,
        List.mem_filter]
    · intro v
      rw [show (extract_io_from_model_description vars).localVars =
            List.insertionSort nameLe (classifyVars vars).2.2.2 from rfl,
        (List.perm_insertionSort nameLe _).mem_iff, classifyVars_eq_filters,
        List.mem_filter]
    · exact List.sorted_insertionSort nameLe _
    · exact List.sorted_insertionSort nameLe _
    · exact List.sorted_insertionSort nameLe _
    · exact List.sorted_insertionSort nameLe _
  · decide

/-! ## Content-addressed hashing (`common/hashing.py`)

`hashlib.sha256` is embedded as the SHA-256 algorithm (FIPS 180-4) over
byte lists; bytes are naturals below 256 and 32-bit words are naturals
reduced modulo `2^32`. -/

/-- 32-bit truncating addition. -/
def add32 (a b : Nat) : Nat := (a + b) % 2 ^ 32

/-- 32-bit bitwise complement. -/
def not32 (a : Nat) : Nat := Nat.xor a (2 ^ 32 - 1)

/-- 32-bit rotate right by `k`. -/
def rotr32 (k a : Nat) : Nat :=
  Nat.lor (Nat.shiftRight a k) (Nat.shiftLeft a (32 - k)) % 2 ^ 32

/-- SHA-256 `Ch(e,f,g)`. -/
def shaCh (e f g : Nat) : Nat := Nat.xor (Nat.land e f) (Nat.land (not32 e) g)

/-- SHA-256 `Maj(a,b,c)`. -/
def shaMaj (a b c : Nat) : Nat :=
  Nat.xor (Nat.xor (Nat.land a b) (Nat.land a c)) (Nat.land b c)

/-- SHA-256 `Σ₀`. -/
def bigSigma0 (a : Nat) : Nat := Nat.xor (Nat.xor (rotr32 2 a) (rotr32 13 a)) (rotr32 22 a)

/-- SHA-256 `Σ₁`. -/
def bigSigma1 (e : Nat) : Nat := Nat.xor (Nat.xor (rotr32 6 e) (rotr32 11 e)) (rotr32 25 e)

/-- SHA-256 `σ₀`. -/
def smallSigma0 (w : Nat) : Nat :=
  Nat.xor (Nat.xor (rotr32 7 w) (rotr32 18 w)) (Nat.shiftRight w 3)

/-- SHA-256 `σ₁`. -/
def smallSigma1 (w : Nat) : Nat :=
  Nat.xor (Nat.xor (rotr32 17 w) (rotr32 19 w)) (Nat.shiftRight w 10)

/-- The SHA-256 round constants K₀…K₆₃. -/
def shaK : List Nat :=
  [1116352408, 1899447441, 3049323471, 3921009573,
   961987163, 1508970993, 2453635748, 2870763221,
   3624381080, 310598401, 607225278, 1426881987,
   1925078388, 2162078206, 2614888103, 3248222580,
   3835390401, 4022224774, 264347078, 604807628,
   770255983, 1249150122, 1555081692, 1996064986,
   2554220882, 2821834349, 2952996808, 3210313671,
   3336571891, 3584528711, 113926993, 338241895,
   666307205, 773529912, 1294757372, 1396182291,
   1695183700, 1986661051, 2177026350, 2456956037,
   2730485921, 2820302411, 3259730800, 3345764771,
   3516065817, 3600352804, 4094571909, 275423344,
   430227734, 506948616, 659060556, 883997877,
   958139571, 1322822218, 1537002063, 1747873779,
   1955562222, 2024104815, 2227730452, 2361852424,
   2428436474, 2756734187, 3204031479, 3329325298]

/-- The eight 32-bit working variables of the SHA-256 compression function. -/
structure Hash8 where
  a : Nat
  b : Nat
  c : Nat
  d : Nat
  e : Nat
  f : Nat
  g : Nat
  hh : Nat
deriving DecidableEq, Repr

/-- The SHA-256 initial hash value H⁽⁰⁾. -/
def shaH0 : Hash8 :=
  ⟨1779033703, 3144134277, 1013904242, 2773480762,
   1359893119, 2600822924, 528734635, 1541459225⟩

/-- One SHA-256 compression round with round constant `ki` and schedule
word `wi`. -/
def shaRound (st : Hash8) (ki wi : Nat) : Hash8 :=
  let t1 := add32 st.hh (add32 (bigSigma1 st.e) (add32 (shaCh st.e st.f st.g) (add32 ki wi)))
  let t2 := add32 (bigSigma0 st.a) (shaMaj st.a st.b st.c)
  ⟨add32 t1 t2, st.a, st.b, st.c, add32 st.d t1, st.e, st.f, st.g⟩

/-- Extend a 16-word block by `k` further message-schedule words. -/
def extendSchedule (l : List Nat) : Nat → List Nat
  | 0 => l
  | k + 1 =>
    extendSchedule
      (l ++ [add32 (add32 (smallSigma1 (l.getD (l.length - 2) 0)) (l.getD (l.length - 7) 0))
               (add32 (smallSigma0 (l.getD (l.length - 15) 0)) (l.getD (l.length - 16) 0))])
      k

/-- Process one 16-word block: run the 64 rounds over the extended
schedule, then add the working variables back into the state. -/
def processBlock (st : Hash8) (block : List Nat) : Hash8 :=
  let w := extendSchedule block 48
  let r := (List.zip shaK w).foldl (fun s p => shaRound s p.1 p.2) st
  ⟨add32 st.a r.a, add32 st.b r.b, add32 st.c r.c, add32 st.d r.d,
   add32 st.e r.e, add32 st.f r.f, add32 st.g r.g, add32 st.hh r.hh⟩

/-- SHA-256 padding: append `0x80`, zero bytes up to 56 mod 64, then the
message bit length as eight big-endian bytes. -/
def padBytes (msg : List Nat) : List Nat :=
  msg ++ 0x80 :: List.replicate ((119 - msg.length % 64) % 64) 0 ++
    (List.range 8).map (fun k => Nat.shiftRight (8 * msg.length) (8 * (7 - k)) % 256)

/-- Group a byte list into big-endian 32-bit words (complete groups of 4). -/
def wordsOfBytes : List Nat → List Nat
  | b0 :: b1 :: b2 :: b3 :: rest => (((b0 * 256 + b1) * 256 + b2) * 256 + b3) :: wordsOfBytes rest
  | _ => []

/-- Split a word list into blocks of 16 words. -/
def toBlocks (l : List Nat) : List (List Nat) :=
  if h : l = [] then [] else l.take 16 :: toBlocks (l.drop 16)
termination_by l.length
decreasing_by
  simp only [List.length_drop]
  have hp : 0 < l.length := List.length_pos.mpr h
  omega

/-- SHA-256 of a byte list, as the final eight-word state. -/
def sha256Words (msg : List Nat) : Hash8 :=
  (toBlocks (wordsOfBytes (padBytes msg))).foldl processBlock shaH0

/-- Lower-case hexadecimal digit. -/
def hexDigit (n : Nat) : Char :=
  if n < 10 then Char.ofNat (48 + n) else Char.ofNat (87 + n)

/-- Eight lower-case hex characters of a 32-bit word, most significant
nibble first. -/
def hexWord8 (w : Nat) : List Char :=
  (List.range 8).map (fun i => hexDigit (Nat.shiftRight w (4 * (7 - i)) % 16))

/-- `hashlib.sha256(...).hexdigest()`: the 64-character lower-case hex
digest of a byte list. -/
def sha256HexDigest (msg : List Nat) : String :=
  let st := sha256Words msg
  ⟨hexWord8 st.a ++ hexWord8 st.b ++ hexWord8 st.c ++ hexWord8 st.d ++
   hexWord8 st.e ++ hexWord8 st.f ++ hexWord8 st.g ++ hexWord8 st.hh⟩

/-- UTF-8 encoding of one character (the `str.encode("utf-8")` collaborator). -/
def utf8EncodeCharBytes (c : Char) : List Nat :=
  let n := c.toNat
  if n < 0x80 then [n]
  else if n < 0x800 then [0xc0 + n / 64, 0x80 + n % 64]
  else if n < 0x10000 then [0xe0 + n / 4096, 0x80 + n / 64 % 64, 0x80 + n % 64]
  else [0xf0 + n / 262144, 0x80 + n / 4096 % 64, 0x80 + n / 64 % 64, 0x80 + n % 64]

/-- UTF-8 encoding of a string as a byte list. -/
def utf8Bytes (s : String) : List Nat := s.data.flatMap utf8EncodeCharBytes

/-- Embedding of `sha256_text`: SHA-256 hex digest of the UTF-8 encoded
string. -/
def sha256_text (s : String) : String := sha256HexDigest (utf8Bytes s)

/-- Embedding of `sha256_file`: the Python function hashes the file's
contents, fed to one running hash in 1 MB chunks; hashing the chunk
concatenation is hashing the whole contents, so the file is embedded as
its byte list. -/
def sha256_file (contents : List Nat) : String := sha256HexDigest contents

/-- Python string slicing `s[:n]`: the first `n` characters. -/
def strTake (n : Nat) (s : String) : String := ⟨s.data.take n⟩

/-- The f-string `f"{file_h}|{class_name}|{fmu_type}|{extra}"` of
`model_artifact_key`. -/
def combinedKeyInput (fileH className fmuType extraOpts : String) : String :=
  fileH ++ "|" ++ className ++ "|" ++ fmuType ++ "|" ++ extraOpts

/-- Embedding of `model_artifact_key`: hash the model file contents, join
with class name, FMU type and extra options, hash again, and keep the
first 16 hex characters. -/
def model_artifact_key (moBytes : List Nat) (className fmuType extraOpts : String) : String :=
  strTake 16 (sha256_text (combinedKeyInput (sha256_file moBytes) className fmuType extraOpts))

lemma hexWord8_length (w : Nat) : (hexWord8 w).length = 8 := by
  simp [hexWord8]

lemma sha256HexDigest_length (msg : List Nat) : (sha256HexDigest msg).length = 64 := by
  simp [sha256HexDigest, String.length, hexWord8_length]

lemma model_artifact_key_length (moBytes : List Nat) (className fmuType extraOpts : String) :
    (model_artifact_key moBytes className fmuType extraOpts).length = 16 := by
  have h64 : (sha256_text
      (combinedKeyInput (sha256_file moBytes) className fmuType extraOpts)).length = 64 :=
    sha256HexDigest_length _
  simp only [model_artifact_key, strTake, String.length, List.length_take]
  simp only [String.length] at h64
  omega

/-- C7 counterexample: two input tuples that differ in the class-name and
FMU-type fields but produce the identical artifact key.  The four fields
are joined with `"|"` before the second hash, so `("x|y", "z")` and
`("x", "y|z")` feed the same combined string to the digest. -/
theorem C7_key_collision_counterexample :
    (("x|y" : String), ("z" : String)) ≠ (("x" : String), ("y|z" : String)) ∧
    model_artifact_key [] "x|y" "z" "" = model_artifact_key [] "x" "y|z" "" := by
  constructor
  · decide
  · have hlit : (("|" : String) ++ ("x|y" ++ ("|" ++ ("z" ++ ("|" ++ ""))))) =
        ("|" ++ ("x" ++ ("|" ++ ("y|z" ++ ("|" ++ ""))))) := by decide
    have hc : combinedKeyInput (sha256_file []) "x|y" "z" "" =
        combinedKeyInput (sha256_file []) "x" "y|z" "" := by
      simp only [combinedKeyInput, String.append_assoc]
      exact congrArg (fun t => sha256_file [] ++ t) hlit
    simp only [model_artifact_key, hc]

/-- C7 (amended): the artifact key is a pure, deterministic function of
the four inputs — identical `(fileBytes, className, fmuType, extra)`
always produce the identical key — and the key always has exactly 16
characters.  (Distinct inputs need not produce distinct keys; see the
counterexample.) -/
theorem C7_artifact_key_pure_function :
    ∀ (b b' : List Nat) (c c' t t' e e' : String),
      b = b' → c = c' → t = t' → e = e' →
      model_artifact_key b c t e = model_artifact_key b' c' t' e' ∧
      (model_artifact_key b c t e).length = 16 := by
  rintro b b' c c' t t' e e' rfl rfl rfl rfl
  exact ⟨rfl, model_artifact_key_length b c t e⟩

/-- Witness for C7: the determinism theorem applied at a concrete input. -/
theorem C7_artifact_key_pure_function_witness :
    model_artifact_key [104, 105] "Rover.M" "me" "" =
      model_artifact_key [104, 105] "Rover.M" "me" "" ∧
    (model_artifact_key [104, 105] "Rover.M" "me" "").length = 16 :=
  C7_artifact_key_pure_function [104, 105] [104, 105] "Rover.M" "Rover.M" "me" "me" "" ""
    rfl rfl rfl rfl

/-! ## FMI 2.0 CS lifecycle wrapper (`backend/fmu_runner.py`, `FMI2CSRunner`)

The wrapper's observable state is its three lifecycle flags
(`_instantiated`, `_initialized`, `_terminated`); the calls it issues to
the underlying FMU runtime are recorded as an event list.  Exceptions are
embedded with `Except`; a raised exception leaves the flags as the Python
method left them at the raise point. -/

/-- The lifecycle flags of an `FMI2CSRunner`. -/
structure RunnerSt where
  instantiated : Bool
  initialized : Bool
  terminated : Bool
deriving DecidableEq, Repr

/-- Calls issued to the underlying FMU runtime (`FMU2Slave`). -/
inductive FmiCall where
  | instantiate
  | setupExperiment
  | enterInitMode
  | exitInitMode
  | doStep
  | terminate
  | freeInstance
deriving DecidableEq, Repr

/-- Embedding of `FMI2CSRunner.instantiate_and_initialize`: raise after
termination; return immediately when already initialized; otherwise issue
`fmi2Instantiate` (unless already instantiated), `fmi2SetupExperiment`,
`fmi2EnterInitializationMode`, `fmi2ExitInitializationMode` and set the
flags.  The runtime's lifecycle calls are modelled as succeeding. -/
def instantiate_and_init (s : RunnerSt) : Except String Unit × RunnerSt × List FmiCall :=
  if s.terminated then
    (Except.error "Cannot initialize: FMU already terminated/freed.", s, [])
  else if s.initialized then (Except.ok (), s, [])
  else
    let pre : List FmiCall := if s.instantiated then [] else [FmiCall.instantiate]
    (Except.ok (),
     { instantiated := true, initialized := true, terminated := s.terminated },
     pre ++ [FmiCall.setupExperiment, FmiCall.enterInitMode, FmiCall.exitInitMode])

/-- Embedding of `FMI2CSRunner.terminate_and_free`: return immediately when
already terminated; otherwise call `fmi2Terminate` inside a `try` whose
`finally` always calls `fmi2FreeInstance` and sets `_terminated`.  The
oracle `termRaises` says whether the runtime's terminate call raises; the
raise propagates only after the `finally` block has run. -/
def terminate_and_free (termRaises : Bool) (s : RunnerSt) :
    Except String Unit × RunnerSt × List FmiCall :=
  if s.terminated then (Except.ok (), s, [])
  else
    let ev : List FmiCall :=
      if s.instantiated then [FmiCall.terminate, FmiCall.freeInstance] else []
    let s' : RunnerSt := { s with terminated := true }
    if termRaises ∧ s.instantiated then (Except.error "fmi2Terminate failed", s', ev)
    else (Except.ok (), s', ev)

/-- Embedding of `FMI2CSRunner.step`: guard on the lifecycle flags before
forwarding to `fmi2DoStep`.  `doStepStatus` is the status the underlying
runtime would return. -/
def stepRunner (doStepStatus : Nat) (s : RunnerSt) (t dt : ℚ) :
    Except String Nat × RunnerSt × List FmiCall :=
  if ¬ s.initialized then
    (Except.error "FMU not initialized. Call instantiate_and_initialize() first.", s, [])
  else if s.terminated then (Except.error "FMU already terminated/freed.", s, [])
  else (Except.ok doStepStatus, s, [FmiCall.doStep])

/-- C5: calling `step()` on a wrapper that has not completed
initialization, or that has been terminated, raises the lifecycle
violation, issues no call at all to the underlying runtime (in particular
no `doStep`), and leaves the wrapper state unchanged. -/
theorem C5_step_before_stepmode_rejected :
    ∀ (doStepStatus : Nat) (s : RunnerSt) (t dt : ℚ),
      (s.initialized = false ∨ s.terminated = true) →
      (∃ msg, (stepRunner doStepStatus s t dt).1 = Except.error msg) ∧
      (stepRunner doStepStatus s t dt).2.2 = [] ∧
      (stepRunner doStepStatus s t dt).2.1 = s := by
  intro st₀ s t dt hguard
  rcases hguard with hni | hterm
  · simp [stepRunner, hni]
  · by_cases hini : s.initialized
    · simp [stepRunner, hini, hterm]
    · simp [stepRunner, hini]

/-- Witness for C5: a freshly constructed wrapper (all flags false)
rejects `step()` without issuing any runtime call. -/
theorem C5_step_before_stepmode_rejected_witness :
    (∃ msg, (stepRunner 0 ⟨false, false, false⟩ 0 (1 / 10)).1 = Except.error msg) ∧
    (stepRunner 0 ⟨false, false, false⟩ 0 (1 / 10)).2.2 = [] ∧
    (stepRunner 0 ⟨false, false, false⟩ 0 (1 / 10)).2.1 = ⟨false, false, false⟩ :=
  C5_step_before_stepmode_rejected 0 ⟨false, false, false⟩ 0 (1 / 10) (Or.inl rfl)

/-- C8: `instantiate_and_initialize` and `terminate_and_free` are
idempotent: after a successful first call, a second call is a no-op (no
runtime calls, no error) leaving the observable state exactly as the
first call left it; likewise a second `terminate_and_free` after a first
one (even one whose underlying `fmi2Terminate` raised). -/
theorem C8_lifecycle_idempotent :
    (∀ (s s₁ : RunnerSt) (ev₁ : List FmiCall),
      instantiate_and_init s = (Except.ok (), s₁, ev₁) →
      instantiate_and_init s₁ = (Except.ok (), s₁, [])) ∧
    (∀ (tr tr' : Bool) (s : RunnerSt),
      terminate_and_free tr' (terminate_and_free tr s).2.1 =
        (Except.ok (), (terminate_and_free tr s).2.1, [])) := by
  constructor
  · intro s s₁ ev₁ hcall
    by_cases hterm : s.terminated
    · simp [instantiate_and_init, hterm] at hcall
    · by_cases hini : s.initialized
      · simp [instantiate_and_init, hterm, hini] at hcall
        obtain ⟨rfl, -⟩ := hcall
        simp [instantiate_and_init, hterm, hini]
      · simp [instantiate_and_init, hterm, hini] at hcall
        obtain ⟨rfl, -⟩ := hcall
        simp [instantiate_and_init, hterm]
  · intro tr tr' s
    by_cases hterm : s.terminated
    · simp [terminate_and_free, hterm]
    · by_cases hr : tr ∧ s.instantiated
      · simp [terminate_and_free, hterm, hr]
      · simp [terminate_and_free, hterm, hr]

/-- Witness for C8: a fresh wrapper initialized once; the second
initialization call is a no-op with the same state. -/
theorem C8_lifecycle_idempotent_witness :
    instantiate_and_init ⟨true, true, false⟩ = (Except.ok (), ⟨true, true, false⟩, []) :=
  C8_lifecycle_idempotent.1 ⟨false, false, false⟩ ⟨true, true, false⟩
    [FmiCall.instantiate, FmiCall.setupExperiment, FmiCall.enterInitMode, FmiCall.exitInitMode]
    rfl

/-! ## pyfmi co-simulation wrapper (`deprecated/fmu_wrapper_cs.py`, `FMUWrapperCS`)

The loaded pyfmi model is embedded as a total valuation `String → ℚ` of
its variables; the runtime's `do_step` is an oracle transforming that
valuation.  Python floats are exact rationals. -/

/-- Update one variable of a model valuation (`model.set(k, v)`). -/
def setVar (m : String → ℚ) (k : String) (v : ℚ) : String → ℚ :=
  fun n => if n = k then v else m n

/-- Embedding of `FMUWrapperCS`: the loaded model valuation, current time,
the cached input vector `_u`, the four name lists captured at load time,
and the five logs appended after each accepted step. -/
structure WrapperCS where
  model : String → ℚ
  t0 : ℚ
  t : ℚ
  stateNames : List String
  inputNames : List String
  outNames : List String
  varNames : List String
  u : List ℚ
  tLog : List ℚ
  uLog : List (List ℚ)
  xLog : List (List ℚ)
  vLog : List (List ℚ)
  yLog : List (List ℚ)

/-- `FMUWrapperCS.__init__`: time starts at `t0`, `_u` is a zero vector of
input arity, the time log starts with `t0` and the value logs start empty. -/
def mkWrapperCS (model : String → ℚ) (t0 : ℚ)
    (stateNames inputNames outNames varNames : List String) : WrapperCS :=
  { model := model, t0 := t0, t := t0,
    stateNames := stateNames, inputNames := inputNames,
    outNames := outNames, varNames := varNames,
    u := List.replicate inputNames.length 0,
    tLog := [t0], uLog := [], xLog := [], vLog := [], yLog := [] }

/-- `FMUWrapperCS.set_param`: set each pair on the model. -/
def wSetParam (w : WrapperCS) (ps : List (String × ℚ)) : WrapperCS :=
  { w with model := ps.foldl (fun m p => setVar m p.1 p.2) w.model }

/-- `FMUWrapperCS.set_input_zoh`: no-op without declared inputs; otherwise
cache the staged vector in `_u` and set every input on the model.  (The
Python `input_dict[n]` indexing assumes every input name is staged; the
embedding reads the staged values through a total lookup.) -/
def wSetInputZoh (w : WrapperCS) (inputVals : String → ℚ) : WrapperCS :=
  if w.inputNames = [] then w
  else
    let u := w.inputNames.map inputVals
    { w with u := u,
             model := (w.inputNames.zip u).foldl (fun m p => setVar m p.1 p.2) w.model }

/-- `FMUWrapperCS.step`: return immediately when `dt <= 0`; otherwise issue
`do_step` (the `doStepO` oracle), advance time by `dt`, and append one
entry to each log.  The boolean reports whether `do_step` was issued. -/
def wStep (doStepO : ℚ → ℚ → (String → ℚ) → (String → ℚ)) (w : WrapperCS) (dt : ℚ) :
    WrapperCS × Bool :=
  if dt ≤ 0 then (w, false)
  else
    let m := doStepO w.t dt w.model
    let t := w.t + dt
    ({ w with model := m, t := t,
              tLog := w.tLog ++ [t],
              uLog := w.uLog ++ [w.u],
              xLog := w.xLog ++ [w.stateNames.map m],
              vLog := w.vLog ++ [w.varNames.map m],
              yLog := w.yLog ++ [w.outNames.map m] }, true)

/-- `FMUWrapperCS.get_output_dict`: the declared outputs read from the
model, as a partial map. -/
def wGetOutput (w : WrapperCS) : String → Option ℚ :=
  fun n => if n ∈ w.outNames then some (w.model n) else none

/-- Python `dict.get(k, d)`. -/
def optGetD (o : Option ℚ) (d : ℚ) : ℚ := o.getD d

/-- C10: `FMUWrapperCS.step` with `dt ≤ 0` is a complete no-op — no
`do_step` call, unchanged time, no log growth — while `dt > 0` issues one
`do_step`, advances time by exactly `dt`, and appends exactly one entry to
each of the five logs. -/
theorem C10_step_nonpositive_noop :
    ∀ (o : ℚ → ℚ → (String → ℚ) → (String → ℚ)) (w : WrapperCS) (dt : ℚ),
      (dt ≤ 0 → wStep o w dt = (w, false)) ∧
      (0 < dt →
        (wStep o w dt).2 = true ∧
        (wStep o w dt).1.t = w.t + dt ∧
        (wStep o w dt).1.tLog = w.tLog ++ [w.t + dt] ∧
        (wStep o w dt).1.uLog = w.uLog ++ [w.u] ∧
        (wStep o w dt).1.xLog.length = w.xLog.length + 1 ∧
        (wStep o w dt).1.vLog.length = w.vLog.length + 1 ∧
        (wStep o w dt).1.yLog.length = w.yLog.length + 1) := by
  intro o w dt
  constructor
  · intro hle
    simp [wStep, hle]
  · intro hpos
    have hnle : ¬ dt ≤ 0 := not_le.mpr hpos
    simp [wStep, hnle]

/-- Witness for C10: a concrete wrapper stepped with `dt = -1` (no-op) and
with `dt = 1/10` (one step, one log row each). -/
theorem C10_step_nonpositive_noop_witness :
    (wStep (fun _ _ m => m) (mkWrapperCS (fun _ => 0) 0 [] [] [] []) (-1) =
      (mkWrapperCS (fun _ => 0) 0 [] [] [] [], false)) ∧
    (wStep (fun _ _ m => m) (mkWrapperCS (fun _ => 0) 0 [] [] [] []) (1 / 10)).1.tLog =
      [0] ++ [0 + 1 / 10] :=
  ⟨(C10_step_nonpositive_noop (fun _ _ m => m) (mkWrapperCS (fun _ => 0) 0 [] [] [] [])
      (-1)).1 (by norm_num),
   ((C10_step_nonpositive_noop (fun _ _ m => m) (mkWrapperCS (fun _ => 0) 0 [] [] [] [])
      (1 / 10)).2 (by norm_num)).2.2.1⟩

/-! ## Attack/fault injection (`scenario/attacks.py`)

`np.random.default_rng(seed)` is embedded as an oracle stream of draws;
`init_attack_state` consumes draws only at construction.  `np.pi` is the
IEEE-754 double closest to π, kept exact. -/

/-- The IEEE-754 double value of `np.pi`, as an exact rational. -/
def piQ : ℚ := 884279719003555 / 281474976710656

/-- Python `int()` truncation toward zero on a rational. -/
def intTrunc (q : ℚ) : ℤ := if 0 ≤ q then ⌊q⌋ else ⌈q⌉

/-- Embedding of the attack-state dict built by `init_attack_state`:
every key the scenarios can store, with 0 standing for an absent key
(no scenario reads a key it did not store). -/
structure AttackSt where
  scenario : Nat
  emi_atk_level : ℚ
  bias : ℚ
  rollover_thr_pwm : ℚ
  gyro_atk_power : ℚ
  speaker_dist : ℚ
  gyro_atk_freq : ℚ
  gyro_misalignment : ℚ
  gyro_atk_dir : ℚ
  gyro_atk_phase : ℚ
  wire_dir : ℚ × ℚ × ℚ
  wire_dist : ℚ × ℚ × ℚ
deriving DecidableEq, Repr

/-- The `wire_dir_map` lookup of scenario 4, with its `(0,0,-1)` default. -/
def wireDirMap (n : ℤ) : ℚ × ℚ × ℚ :=
  match n with
  | 1 => (1, 0, 0)
  | 2 => (-1, 0, 0)
  | 3 => (0, 1, 0)
  | 4 => (0, -1, 0)
  | 5 => (0, 0, 1)
  | _ => (0, 0, -1)

/-- Embedding of `init_attack_state`: all randomness is consumed from the
`draws` stream here, at construction. -/
def init_attack_state (scenario : Nat) (params : String → ℚ) (draws : Nat → ℚ) : AttackSt :=
  if scenario = 1 then
    { scenario := scenario,
      emi_atk_level := params "emi_disturbance" / 180 * piQ,
      bias := 2 * (draws 0 - 1 / 2),
      rollover_thr_pwm := 0, gyro_atk_power := 0, speaker_dist := 0, gyro_atk_freq := 0,
      gyro_misalignment := 0, gyro_atk_dir := 0, gyro_atk_phase := 0,
      wire_dir := (0, 0, 0), wire_dist := (0, 0, 0) }
  else if scenario = 2 then
    { scenario := scenario,
      emi_atk_level := 0, bias := 0,
      rollover_thr_pwm := params "throttle_pwm_level",
      gyro_atk_power := 0, speaker_dist := 0, gyro_atk_freq := 0,
      gyro_misalignment := 0, gyro_atk_dir := 0, gyro_atk_phase := 0,
      wire_dir := (0, 0, 0), wire_dist := (0, 0, 0) }
  else if scenario = 3 then
    { scenario := scenario,
      emi_atk_level := 0, bias := 0, rollover_thr_pwm := 0,
      gyro_atk_power := params "acoustic_power",
      speaker_dist := params "speaker_dist",
      gyro_atk_freq := (params "drive_freq" +
        params "acoustic_freq_range" * (2 * draws 0 - 1)) * (2 * piQ),
      gyro_misalignment := params "gyro_misalignment" * draws 1 * (piQ / 180),
      gyro_atk_dir := draws 2 * (piQ / 2),
      gyro_atk_phase := draws 3 * 2 * piQ - piQ,
      wire_dir := (0, 0, 0), wire_dist := (0, 0, 0) }
  else if scenario = 4 then
    { scenario := scenario,
      emi_atk_level := 0, bias := 0, rollover_thr_pwm := 0,
      gyro_atk_power := 0, speaker_dist := 0, gyro_atk_freq := 0,
      gyro_misalignment := 0, gyro_atk_dir := 0, gyro_atk_phase := 0,
      wire_dir := wireDirMap (intTrunc (params "wire_dir")),
      wire_dist := (0, 0, -(params "wire_relative_dist")) }
  else
    { scenario := scenario,
      emi_atk_level := 0, bias := 0, rollover_thr_pwm := 0,
      gyro_atk_power := 0, speaker_dist := 0, gyro_atk_freq := 0,
      gyro_misalignment := 0, gyro_atk_dir := 0, gyro_atk_phase := 0,
      wire_dir := (0, 0, 0), wire_dist := (0, 0, 0) }

/-- Embedding of `per_step_params_for_rover`: the per-step rover parameter
overrides, a pure function of the scenario id and the attack state. -/
def per_step_params_for_rover (scenario : Nat) (st : AttackSt) : List (String × ℚ) :=
  if scenario = 3 then
    [("W", st.gyro_atk_power), ("dist", st.speaker_dist), ("w_ac", st.gyro_atk_freq),
     ("phi_0", st.gyro_atk_phase), ("psi_ac", st.gyro_atk_dir),
     ("epsilon", st.gyro_misalignment)]
  else
    [("W", 0), ("dist", 1 / 100), ("w_ac", 15000), ("phi_0", 0), ("psi_ac", 0),
     ("epsilon", 0)]

/-- Embedding of `per_step_params_for_emi_wire` (hi-fi rover only). -/
def per_step_params_for_emi_wire (scenario : Nat) (st : AttackSt) : List (String × ℚ) :=
  if scenario = 4 then
    [("rover_8d.emi.wire_dir[1]", st.wire_dir.1),
     ("rover_8d.emi.wire_dir[2]", st.wire_dir.2.1),
     ("rover_8d.emi.wire_dir[3]", st.wire_dir.2.2),
     ("rover_8d.emi.x_wire[1]", st.wire_dist.1),
     ("rover_8d.emi.x_wire[2]", st.wire_dist.2.1),
     ("rover_8d.emi.x_wire[3]", st.wire_dist.2.2)]
  else
    [("rover_8d.emi.wire_dir[1]", 0), ("rover_8d.emi.wire_dir[2]", 0),
     ("rover_8d.emi.wire_dir[3]", 1), ("rover_8d.emi.x_wire[1]", 0),
     ("rover_8d.emi.x_wire[2]", 0), ("rover_8d.emi.x_wire[3]", -(1 / 100))]

/-! ## Master co-simulation loop (`backend/rover_closed_loop_fmu.py`,
`run_rover_closed_loop_fmu`)

The three FMU runtimes are `do_step` oracles; each communication step runs
the webserver, then the controller, then the rover dynamics in that fixed
order, relaying signals in between exactly as the source loop does. -/

/-- The `do_step` behavior of one loaded FMU: current time, step size and
pre-step valuation to post-step valuation. -/
def DoStepOracle : Type := ℚ → ℚ → (String → ℚ) → (String → ℚ)

/-- The master loop's state: the three component wrappers and the attack
state threaded through the run. -/
structure LoopSt where
  web : WrapperCS
  ctrl : WrapperCS
  rover : WrapperCS
  atk : AttackSt

/-- The per-step observables of one communication step: the input dict
staged onto the controller, the input dict staged onto the rover, and the
rover parameter overrides applied. -/
structure StepRecord where
  ctrlStaged : List (String × ℚ)
  roverStaged : List (String × ℚ)
  roverParams : List (String × ℚ)

/-- Update one key of an association list in place. -/
def assocUpd (l : List (String × ℚ)) (k : String) (f : ℚ → ℚ) : List (String × ℚ) :=
  l.map (fun p => if p.1 = k then (p.1, f p.2) else p)

/-- Total lookup in an association list (first match wins), default 0. -/
def assocGetD : List (String × ℚ) → String → ℚ
  | [], _ => 0
  | p :: rest, n => if p.1 = n then p.2 else assocGetD rest n

/-- One communication step of `run_rover_closed_loop_fmu`: (1) webserver
steps and its `turn` output is pushed onto the controller; (2) the rover's
pre-step measurements are staged as the controller's inputs (scenario 1
biases `psi_gyro` when the controller mode `s` is at least 3), the
controller steps; (3) the controller's fresh `pwm` outputs are staged as
the rover's inputs (scenario 2 overrides the throttle), attack parameters
are applied, the rover steps; (4) legacy timer counters are rewritten. -/
def roverLoopStep (webO ctrlO roverO : DoStepOracle) (scenario fidelity : Nat)
    (dt tCur : ℚ) (s : LoopSt) : LoopSt × StepRecord :=
  let web1 := wSetParam s.web [("sample_interval", dt + 1 / 1000000)]
  let web2 := (wStep webO web1 dt).1
  let turnCmd := wGetOutput web2 "turn"
  let ctrl1 :=
    match turnCmd with
    | some v => { s.ctrl with model := setVar s.ctrl.model "turn" v }
    | none => s.ctrl
  let roverOut := wGetOutput s.rover
  let ctrlInBase : List (String × ℚ) :=
    [("ax_acc", optGetD (roverOut "ax_meas") 0),
     ("ay_acc", optGetD (roverOut "ay_meas") 0),
     ("az_acc", optGetD (roverOut "az_meas") 0),
     ("mx_mag", optGetD (roverOut "mx_meas") 0),
     ("my_mag", optGetD (roverOut "my_meas") 0),
     ("mz_mag", optGetD (roverOut "mz_meas") 0),
     ("phi_gyro", optGetD (roverOut "phi_meas") 0),
     ("theta_gyro", optGetD (roverOut "theta_meas") 0),
     ("psi_gyro", optGetD (roverOut "psi_meas") 0),
     ("p_gyro", optGetD (roverOut "p_meas") 0),
     ("q_gyro", optGetD (roverOut "q_meas") 0),
     ("r_gyro", optGetD (roverOut "r_meas") 0),
     ("x", optGetD (roverOut "x_meas") 0),
     ("y", optGetD (roverOut "y_meas") 0)]
  let ctrlIn :=
    if scenario = 1 ∧ 3 ≤ ctrl1.model "s" then
      assocUpd ctrlInBase "psi_gyro" (fun x => x + s.atk.emi_atk_level * s.atk.bias)
    else ctrlInBase
  let ctrl2 := wSetInputZoh ctrl1 (assocGetD ctrlIn)
  let ctrl3 := wSetParam ctrl2 [("sample_interval", dt + 1 / 1000000)]
  let ctrl4 := (wStep ctrlO ctrl3 dt).1
  let ctrlOut := wGetOutput ctrl4
  let pwmSteering := optGetD (ctrlOut "pwm_steering") 0
  let pwmThrottle :=
    if scenario = 2 then s.atk.rollover_thr_pwm else optGetD (ctrlOut "pwm_throttle") 0
  let roverStagedList : List (String × ℚ) :=
    [("pwm_steering", pwmSteering), ("pwm_throttle", pwmThrottle)]
  let rover1 := wSetInputZoh s.rover (assocGetD roverStagedList)
  let roverParams := per_step_params_for_rover scenario s.atk
  let rover2 := wSetParam rover1 roverParams
  let rover3 :=
    if fidelity = 2 then wSetParam rover2 (per_step_params_for_emi_wire scenario s.atk)
    else rover2
  let rover4 := wSetParam rover3 [("sample_interval", dt + 1 / 1000000)]
  let rover5 := (wStep roverO rover4 dt).1
  let web3 := { web2 with model := setVar web2.model "timer_count" (tCur / dt) }
  let rover6 := { rover5 with model := setVar rover5.model "gyroatk.timer_count" (tCur / dt) }
  ({ web := web3, ctrl := ctrl4, rover := rover6, atk := s.atk },
   { ctrlStaged := ctrlIn, roverStaged := roverStagedList, roverParams := roverParams })

/-- `np.linspace(t0, tf, n+1)` point `i`: index-derived, not accumulated. -/
def linspacePoint (t0 tf : ℚ) (n : Nat) (i : Nat) : ℚ := t0 + i * ((tf - t0) / n)

/-- The loop iteration count `int((tf - t0) / dt)` of
`run_rover_closed_loop_fmu` (there are `n + 1` linspace points and the
loop runs over `times[:-1]`). -/
def numSteps (t0 tf dt : ℚ) : Nat := (intTrunc ((tf - t0) / dt)).toNat

/-- The first `k` communication steps of the master loop, each at its
linspace communication point. -/
def runRoverN (webO ctrlO roverO : DoStepOracle) (scenario fidelity : Nat)
    (t0 tf dt : ℚ) (s0 : LoopSt) : Nat → LoopSt
  | 0 => s0
  | Nat.succ k =>
    (roverLoopStep webO ctrlO roverO scenario fidelity dt
      (linspacePoint t0 tf (numSteps t0 tf dt) k)
      (runRoverN webO ctrlO roverO scenario fidelity t0 tf dt s0 k)).1

@[simp] lemma wSetParam_t (w : WrapperCS) (ps : List (String × ℚ)) :
    (wSetParam w ps).t = w.t := rfl

@[simp] lemma wSetParam_tLog (w : WrapperCS) (ps : List (String × ℚ)) :
    (wSetParam w ps).tLog = w.tLog := rfl

@[simp] lemma wSetParam_uLog (w : WrapperCS) (ps : List (String × ℚ)) :
    (wSetParam w ps).uLog = w.uLog := rfl

@[simp] lemma wSetParam_xLog (w : WrapperCS) (ps : List (String × ℚ)) :
    (wSetParam w ps).xLog = w.xLog := rfl

@[simp] lemma wSetParam_vLog (w : WrapperCS) (ps : List (String × ℚ)) :
    (wSetParam w ps).vLog = w.vLog := rfl

@[simp] lemma wSetParam_yLog (w : WrapperCS) (ps : List (String × ℚ)) :
    (wSetParam w ps).yLog = w.yLog := rfl

@[simp] lemma wSetInputZoh_t (w : WrapperCS) (f : String → ℚ) :
    (wSetInputZoh w f).t = w.t := by
  unfold wSetInputZoh
  split <;> rfl

@[simp] lemma wSetInputZoh_tLog (w : WrapperCS) (f : String → ℚ) :
    (wSetInputZoh w f).tLog = w.tLog := by
  unfold wSetInputZoh
  split <;> rfl

@[simp] lemma wSetInputZoh_uLog (w : WrapperCS) (f : String → ℚ) :
    (wSetInputZoh w f).uLog = w.uLog := by
  unfold wSetInputZoh
  split <;> rfl

@[simp] lemma wSetInputZoh_xLog (w : WrapperCS) (f : String → ℚ) :
    (wSetInputZoh w f).xLog = w.xLog := by
  unfold wSetInputZoh
  split <;> rfl

@[simp] lemma wSetInputZoh_vLog (w : WrapperCS) (f : String → ℚ) :
    (wSetInputZoh w f).vLog = w.vLog := by
  unfold wSetInputZoh
  split <;> rfl

@[simp] lemma wSetInputZoh_yLog (w : WrapperCS) (f : String → ℚ) :
    (wSetInputZoh w f).yLog = w.yLog := by
  unfold wSetInputZoh
  split <;> rfl

/-- The attack state is never written by a communication step. -/
lemma roverLoopStep_atk (webO ctrlO roverO : DoStepOracle) (scenario fidelity : Nat)
    (dt tCur : ℚ) (s : LoopSt) :
    (roverLoopStep webO ctrlO roverO scenario fidelity dt tCur s).1.atk = s.atk := rfl

/-- The per-step rover override record is the pure override function of the
step's attack state. -/
lemma roverLoopStep_roverParams (webO ctrlO roverO : DoStepOracle) (scenario fidelity : Nat)
    (dt tCur : ℚ) (s : LoopSt) :
    (roverLoopStep webO ctrlO roverO scenario fidelity dt tCur s).2.roverParams =
      per_step_params_for_rover scenario s.atk := rfl

/-- Effect of one communication step on the rover wrapper's time and logs:
with a positive step size, time advances by exactly `dt` and every log
gains exactly one row. -/
lemma roverLoopStep_rover_logs (webO ctrlO roverO : DoStepOracle) (scenario fidelity : Nat)
    (dt tCur : ℚ) (s : LoopSt) (hdt : 0 < dt) :
    (roverLoopStep webO ctrlO roverO scenario fidelity dt tCur s).1.rover.t = s.rover.t + dt ∧
    (roverLoopStep webO ctrlO roverO scenario fidelity dt tCur s).1.rover.tLog =
      s.rover.tLog ++ [s.rover.t + dt] ∧
    (roverLoopStep webO ctrlO roverO scenario fidelity dt tCur s).1.rover.xLog.length =
      s.rover.xLog.length + 1 ∧
    (roverLoopStep webO ctrlO roverO scenario fidelity dt tCur s).1.rover.vLog.length =
      s.rover.vLog.length + 1 ∧
    (roverLoopStep webO ctrlO roverO scenario fidelity dt tCur s).1.rover.yLog.length =
      s.rover.yLog.length + 1 := by
  have hnle : ¬ dt ≤ 0 := not_le.mpr hdt
  by_cases hf : fidelity = 2 <;>
    simp [roverLoopStep, wStep, hnle, hf]

/-- Across the first `k` communication steps the rover wrapper's time
advances to `t0 + k·dt`, the time log accumulates the stamps
`t + (i+1)·dt` after its initial contents, and each value log gains one
row per step. -/
lemma runRoverN_rover_logs (webO ctrlO roverO : DoStepOracle) (scenario fidelity : Nat)
    (t0 tf dt : ℚ) (s0 : LoopSt) (hdt : 0 < dt) (k : Nat) :
    (runRoverN webO ctrlO roverO scenario fidelity t0 tf dt s0 k).rover.t =
      s0.rover.t + k * dt ∧
    (runRoverN webO ctrlO roverO scenario fidelity t0 tf dt s0 k).rover.tLog =
      s0.rover.tLog ++ (List.range k).map (fun i => s0.rover.t + (i + 1 : ℕ) * dt) ∧
    (runRoverN webO ctrlO roverO scenario fidelity t0 tf dt s0 k).rover.xLog.length =
      s0.rover.xLog.length + k ∧
    (runRoverN webO ctrlO roverO scenario fidelity t0 tf dt s0 k).rover.vLog.length =
      s0.rover.vLog.length + k ∧
    (runRoverN webO ctrlO roverO scenario fidelity t0 tf dt s0 k).rover.yLog.length =
      s0.rover.yLog.length + k := by
  induction k with
  | zero => simp [runRoverN]
  | succ k ih =>
    obtain ⟨iht, ihlog, ihx, ihv, ihy⟩ := ih
    have hstep := roverLoopStep_rover_logs webO ctrlO roverO scenario fidelity dt
      (linspacePoint t0 tf (numSteps t0 tf dt) k)
      (runRoverN webO ctrlO roverO scenario fidelity t0 tf dt s0 k) hdt
    obtain ⟨ht, hlog, hx, hv, hy⟩ := hstep
    refine ⟨?_, ?_, ?_, ?_, ?_⟩
    · rw [show runRoverN webO ctrlO roverO scenario fidelity t0 tf dt s0 (k + 1) =
          (roverLoopStep webO ctrlO roverO scenario fidelity dt
            (linspacePoint t0 tf (numSteps t0 tf dt) k)
            (runRoverN webO ctrlO roverO scenario fidelity t0 tf dt s0 k)).1 from rfl,
        ht, iht]
      push_cast
      ring_nf
    · rw [show runRoverN webO ctrlO roverO scenario fidelity t0 tf dt s0 (k + 1) =
          (roverLoopStep webO ctrlO roverO scenario fidelity dt
            (linspacePoint t0 tf (numSteps t0 tf dt) k)
            (runRoverN webO ctrlO roverO scenario fidelity t0 tf dt s0 k)).1 from rfl,
        hlog, ihlog, iht, List.range_succ, List.map_append, List.append_assoc]
      simp only [List.map_cons, List.map_nil]
      congr 2
      push_cast
      ring_nf
    · rw [show runRoverN webO ctrlO roverO scenario fidelity t0 tf dt s0 (k + 1) =
          (roverLoopStep webO ctrlO roverO scenario fidelity dt
            (linspacePoint t0 tf (numSteps t0 tf dt) k)
            (runRoverN webO ctrlO roverO scenario fidelity t0 tf dt s0 k)).1 from rfl,
        hx, ihx]
      omega
    · rw [show runRoverN webO ctrlO roverO scenario fidelity t0 tf dt s0 (k + 1) =
          (roverLoopStep webO ctrlO roverO scenario fidelity dt
            (linspacePoint t0 tf (numSteps t0 tf dt) k)
            (runRoverN webO ctrlO roverO scenario fidelity t0 tf dt s0 k)).1 from rfl,
        hv, ihv]
      omega
    · rw [show runRoverN webO ctrlO roverO scenario fidelity t0 tf dt s0 (k + 1) =
          (roverLoopStep webO ctrlO roverO scenario fidelity dt
            (linspacePoint t0 tf (numSteps t0 tf dt) k)
            (runRoverN webO ctrlO roverO scenario fidelity t0 tf dt s0 k)).1 from rfl,
        hy, ihy]
      omega

/-- The attack state is invariant across any number of communication steps. -/
lemma runRoverN_atk (webO ctrlO roverO : DoStepOracle) (scenario fidelity : Nat)
    (t0 tf dt : ℚ) (s0 : LoopSt) (k : Nat) :
    (runRoverN webO ctrlO roverO scenario fidelity t0 tf dt s0 k).atk = s0.atk := by
  induction k with
  | zero => rfl
  | succ k ih =>
    rw [show runRoverN webO ctrlO roverO scenario fidelity t0 tf dt s0 (k + 1) =
        (roverLoopStep webO ctrlO roverO scenario fidelity dt
          (linspacePoint t0 tf (numSteps t0 tf dt) k)
          (runRoverN webO ctrlO roverO scenario fidelity t0 tf dt s0 k)).1 from rfl,
      roverLoopStep_atk, ih]

/-- An FMU runtime whose `do_step` leaves the valuation unchanged. -/
def cexIdOracle : DoStepOracle := fun _ _ m => m

/-- The all-zero model valuation. -/
def cexModel0 : String → ℚ := fun _ => 0

/-- A freshly initialized wrapper with no declared variables. -/
def cexWrap0 : WrapperCS := mkWrapperCS cexModel0 0 [] [] [] []

/-- Attack state of the nominal scenario 0. -/
def cexAtk0 : AttackSt := init_attack_state 0 (fun _ => 0) (fun _ => 0)

/-- Nominal three-component loop state over trivial wrappers. -/
def cexLoop0 : LoopSt := ⟨cexWrap0, cexWrap0, cexWrap0, cexAtk0⟩

/-- A controller whose `pwm_steering` output is 5 before the step. -/
def cexCtrlModel : String → ℚ := fun n => if n = "pwm_steering" then 5 else 0

/-- A controller runtime whose `do_step` drives `pwm_steering` to 7. -/
def cexCtrlOracle : DoStepOracle := fun _ _ m => setVar m "pwm_steering" 7

/-- A controller wrapper exposing the two pwm outputs. -/
def cexCtrlWrap : WrapperCS :=
  mkWrapperCS cexCtrlModel 0 [] [] ["pwm_steering", "pwm_throttle"] []

/-- Loop state whose controller is `cexCtrlWrap`. -/
def cexLoopC2 : LoopSt := ⟨cexWrap0, cexCtrlWrap, cexWrap0, cexAtk0⟩

lemma wStep_fst_outNames (o : DoStepOracle) (w : WrapperCS) (dt : ℚ) :
    (wStep o w dt).1.outNames = w.outNames := by
  unfold wStep
  split <;> rfl

lemma wStep_fst_model (o : DoStepOracle) (w : WrapperCS) (dt : ℚ) (hdt : ¬ dt ≤ 0) :
    (wStep o w dt).1.model = o w.t dt w.model := by
  simp [wStep, hdt]

@[simp] lemma wSetParam_outNames (w : WrapperCS) (ps : List (String × ℚ)) :
    (wSetParam w ps).outNames = w.outNames := rfl

@[simp] lemma wSetInputZoh_outNames (w : WrapperCS) (f : String → ℚ) :
    (wSetInputZoh w f).outNames = w.outNames := by
  unfold wSetInputZoh
  split <;> rfl

/-- After one communication step, the controller's declared outputs are
those it was loaded with. -/
lemma roverLoopStep_ctrl_outNames (webO ctrlO roverO : DoStepOracle)
    (scenario fidelity : Nat) (dt tCur : ℚ) (s : LoopSt) :
    (roverLoopStep webO ctrlO roverO scenario fidelity dt tCur s).1.ctrl.outNames =
      s.ctrl.outNames := by
  simp only [roverLoopStep]
  rw [wStep_fst_outNames, wSetParam_outNames, wSetInputZoh_outNames]
  split <;> rfl

/-- With the counterexample controller runtime, the controller's
`pwm_steering` after its step-k `do_step` is 7, whatever it was before. -/
lemma roverLoopStep_cexCtrl_model (webO roverO : DoStepOracle)
    (scenario fidelity : Nat) (dt tCur : ℚ) (s : LoopSt) (hdt : ¬ dt ≤ 0) :
    (roverLoopStep webO cexCtrlOracle roverO scenario fidelity dt tCur s).1.ctrl.model
      "pwm_steering" = 7 := by
  simp only [roverLoopStep]
  rw [wStep_fst_model _ _ _ hdt]
  simp [cexCtrlOracle, setVar]

/-- The two pwm values staged onto the rover in a scenario-0 step are read
from the stepped controller. -/
lemma roverLoopStep_roverStaged_scenario0 (webO ctrlO roverO : DoStepOracle)
    (fidelity : Nat) (dt tCur : ℚ) (s : LoopSt) :
    (roverLoopStep webO ctrlO roverO 0 fidelity dt tCur s).2.roverStaged =
      [("pwm_steering",
        optGetD (wGetOutput (roverLoopStep webO ctrlO roverO 0 fidelity dt tCur s).1.ctrl
          "pwm_steering") 0),
       ("pwm_throttle",
        optGetD (wGetOutput (roverLoopStep webO ctrlO roverO 0 fidelity dt tCur s).1.ctrl
          "pwm_throttle") 0)] := rfl

/-- C2 counterexample: on the controller→rover connection
(`pwm_steering`), the source outputs 5 at the end of step k−1, the
controller's step-k `do_step` drives it to 7, and the value staged onto
the rover for step k is 7 — the value produced *during* step k, not the
pre-step value 5. -/
theorem C2_staged_value_counterexample :
    cexLoopC2.ctrl.model "pwm_steering" = 5 ∧
    assocGetD ((roverLoopStep cexIdOracle cexCtrlOracle cexIdOracle 0 1 (1 / 10) 0
        cexLoopC2).2.roverStaged) "pwm_steering" = 7 ∧
    (7 : ℚ) ≠ 5 := by
  refine ⟨rfl, ?_, by norm_num⟩
  have houts := roverLoopStep_ctrl_outNames cexIdOracle cexCtrlOracle cexIdOracle 0 1
    (1 / 10) 0 cexLoopC2
  have hmodel := roverLoopStep_cexCtrl_model cexIdOracle cexIdOracle 0 1 (1 / 10) 0
    cexLoopC2 (by norm_num)
  have hmem : "pwm_steering" ∈ (roverLoopStep cexIdOracle cexCtrlOracle cexIdOracle 0 1
      (1 / 10) 0 cexLoopC2).1.ctrl.outNames := by
    rw [houts]
    show "pwm_steering" ∈ ["pwm_steering", "pwm_throttle"]
    simp
  rw [roverLoopStep_roverStaged_scenario0]
  simp only [assocGetD, if_pos rfl]
  rw [wGetOutput, if_pos hmem, hmodel]
  rfl

/-- C2 (amended): the master loop relays with the Gauss–Seidel ordering,
not a uniform sample-and-hold.  With the nominal scenario 0: the
rover→controller measurements are staged from the rover state at entry to
the step (the end of step k−1, true sample-and-hold, since the rover
steps last), while the controller→rover pwm commands are staged from the
controller state *after* its step-k `do_step` (the value produced during
step k, since the controller steps earlier in the same communication
step). -/
theorem C2_relay_gauss_seidel :
    ∀ (webO ctrlO roverO : DoStepOracle) (fidelity : Nat) (dt tCur : ℚ) (s : LoopSt),
      (roverLoopStep webO ctrlO roverO 0 fidelity dt tCur s).2.ctrlStaged =
        [("ax_acc", optGetD (wGetOutput s.rover "ax_meas") 0),
         ("ay_acc", optGetD (wGetOutput s.rover "ay_meas") 0),
         ("az_acc", optGetD (wGetOutput s.rover "az_meas") 0),
         ("mx_mag", optGetD (wGetOutput s.rover "mx_meas") 0),
         ("my_mag", optGetD (wGetOutput s.rover "my_meas") 0),
         ("mz_mag", optGetD (wGetOutput s.rover "mz_meas") 0),
         ("phi_gyro", optGetD (wGetOutput s.rover "phi_meas") 0),
         ("theta_gyro", optGetD (wGetOutput s.rover "theta_meas") 0),
         ("psi_gyro", optGetD (wGetOutput s.rover "psi_meas") 0),
         ("p_gyro", optGetD (wGetOutput s.rover "p_meas") 0),
         ("q_gyro", optGetD (wGetOutput s.rover "q_meas") 0),
         ("r_gyro", optGetD (wGetOutput s.rover "r_meas") 0),
         ("x", optGetD (wGetOutput s.rover "x_meas") 0),
         ("y", optGetD (wGetOutput s.rover "y_meas") 0)] ∧
      (roverLoopStep webO ctrlO roverO 0 fidelity dt tCur s).2.roverStaged =
        [("pwm_steering",
          optGetD (wGetOutput (roverLoopStep webO ctrlO roverO 0 fidelity dt tCur s).1.ctrl
            "pwm_steering") 0),
         ("pwm_throttle",
          optGetD (wGetOutput (roverLoopStep webO ctrlO roverO 0 fidelity dt tCur s).1.ctrl
            "pwm_throttle") 0)] := by
  intro webO ctrlO roverO fidelity dt tCur s
  exact ⟨rfl, rfl⟩

/-- `int((1 - 0) / 0.1) = 10`: the loop iteration count at the
specification's example configuration. -/
lemma numSteps_unit_tenth : numSteps 0 1 (1 / 10) = 10 := by
  have h : ((1 : ℚ) - 0) / (1 / 10) = 10 := by norm_num
  rw [numSteps, h]
  norm_num [intTrunc]
  rfl

/-- C3 counterexample: with `startTime=0, stopTime=1, stepSize=0.1` the
loop performs its 10 steps, but a component wrapper's time log then holds
11 stamps, the first of which is 0.0 — not 10 rows stamped 0.1…1.0. -/
theorem C3_row_count_counterexample :
    (runRoverN cexIdOracle cexIdOracle cexIdOracle 0 1 0 1 (1 / 10) cexLoop0
        (numSteps 0 1 (1 / 10))).rover.tLog.length = 11 ∧
    (runRoverN cexIdOracle cexIdOracle cexIdOracle 0 1 0 1 (1 / 10) cexLoop0
        (numSteps 0 1 (1 / 10))).rover.tLog.head? = some 0 := by
  have hn : numSteps 0 1 (1 / 10) = 10 := numSteps_unit_tenth
  have h := runRoverN_rover_logs cexIdOracle cexIdOracle cexIdOracle 0 1 0 1 (1 / 10)
    cexLoop0 (by norm_num) (numSteps 0 1 (1 / 10))
  rw [hn] at h
  rw [hn, h.2.1]
  constructor
  · simp [cexLoop0, cexWrap0, mkWrapperCS]
  · simp [cexLoop0, cexWrap0, mkWrapperCS]

/-- C3 (amended): a run configured with `startTime=0, stopTime=1,
stepSize=0.1` performs exactly 10 communication steps; each value log of
the rover wrapper gains exactly 10 rows, while its time log ends as the
11 stamps `t0, t0+0.1, …, t0+1.0` — the initial time plus one stamp per
step, produced by the accumulation `t := t + dt` (equal to the
index-derived values in exact arithmetic). -/
theorem C3_ten_steps_time_log :
    ∀ (webO ctrlO roverO : DoStepOracle) (scenario fidelity : Nat) (s0 : LoopSt),
      numSteps 0 1 (1 / 10) = 10 ∧
      (runRoverN webO ctrlO roverO scenario fidelity 0 1 (1 / 10) s0 10).rover.t =
        s0.rover.t + 1 ∧
      (runRoverN webO ctrlO roverO scenario fidelity 0 1 (1 / 10) s0 10).rover.tLog =
        s0.rover.tLog ++ (List.range 10).map (fun i => s0.rover.t + (i + 1 : ℕ) * (1 / 10)) ∧
      (runRoverN webO ctrlO roverO scenario fidelity 0 1 (1 / 10) s0 10).rover.xLog.length =
        s0.rover.xLog.length + 10 ∧
      (runRoverN webO ctrlO roverO scenario fidelity 0 1 (1 / 10) s0 10).rover.vLog.length =
        s0.rover.vLog.length + 10 ∧
      (runRoverN webO ctrlO roverO scenario fidelity 0 1 (1 / 10) s0 10).rover.yLog.length =
        s0.rover.yLog.length + 10 := by
  intro webO ctrlO roverO scenario fidelity s0
  have h := runRoverN_rover_logs webO ctrlO roverO scenario fidelity 0 1 (1 / 10) s0
    (by norm_num) 10
  refine ⟨numSteps_unit_tenth, ?_, h.2.1, h.2.2.1, h.2.2.2.1, h.2.2.2.2⟩
  rw [h.1]
  norm_num

/-- C9: the attack state is constructed exactly once per run by
`init_attack_state` (which draws all its randomness from the seeded
stream at that construction), is never mutated by any number of
communication steps, and the per-step rover parameter overrides applied
at every step k are the pure function `per_step_params_for_rover` of the
scenario id and that once-constructed state. -/
theorem C9_attack_state_immutable :
    ∀ (webO ctrlO roverO : DoStepOracle) (scenario fidelity : Nat)
      (params : String → ℚ) (draws : Nat → ℚ) (t0 tf dt : ℚ)
      (web0 ctrl0 rover0 : WrapperCS) (k : Nat),
      (runRoverN webO ctrlO roverO scenario fidelity t0 tf dt
          ⟨web0, ctrl0, rover0, init_attack_state scenario params draws⟩ k).atk =
        init_attack_state scenario params draws ∧
      (roverLoopStep webO ctrlO roverO scenario fidelity dt
          (linspacePoint t0 tf (numSteps t0 tf dt) k)
          (runRoverN webO ctrlO roverO scenario fidelity t0 tf dt
            ⟨web0, ctrl0, rover0, init_attack_state scenario params draws⟩ k)).2.roverParams =
        per_step_params_for_rover scenario (init_attack_state scenario params draws) := by
  intro webO ctrlO roverO scenario fidelity params draws t0 tf dt web0 ctrl0 rover0 k
  have hatk := runRoverN_atk webO ctrlO roverO scenario fidelity t0 tf dt
    ⟨web0, ctrl0, rover0, init_attack_state scenario params draws⟩ k
  refine ⟨hatk, ?_⟩
  rw [roverLoopStep_roverParams, hatk]

/-! ## Cached FMU build (`translator/mo_to_fmu.py`, `build_fmu`)

The filesystem is a partial map from paths (component lists) to byte
contents; the OpenModelica compiler is an oracle transforming the
filesystem and either raising or returning the path of the generated FMU.
Log/metadata contents are irrelevant to the claims and are written as
empty byte lists. -/

/-- A filesystem path, as its components. -/
abbrev FsPath := List String

/-- Filesystem state: contents of each existing file. -/
abbrev FS := FsPath → Option (List Nat)

/-- Write (create or overwrite) one file. -/
def fsWrite (fs : FS) (p : FsPath) (c : List Nat) : FS :=
  fun q => if q = p then some c else fs q

/-- `class_name.replace(".", "_")`. -/
def pyReplaceDots (s : String) : String :=
  ⟨s.data.map (fun c => if c = '.' then '_' else c)⟩

/-- The per-key build directory `build/translator_runs/fmu/<key>/`. -/
def buildOutDir (key : String) : FsPath := ["build", "translator_runs", "fmu", key]

/-- The expected final artifact path `out_dir/<Class_Name>.fmu`. -/
def expectedFmuPath (moBytes : List Nat) (className fmuType : String) : FsPath :=
  buildOutDir (model_artifact_key moBytes className fmuType "") ++
    [pyReplaceDots className ++ ".fmu"]

/-- Embedding of the `FMUArtifact` dataclass. -/
structure FMUArtifactM where
  fmu_path : FsPath
  work_dir : FsPath
  key : String

/-- The metadata file `out_dir/logs/build_info.json`. -/
def buildInfoPath (key : String) : FsPath := buildOutDir key ++ ["logs", "build_info.json"]

/-- The build log `out_dir/logs/build.log`. -/
def buildLogPath (key : String) : FsPath := buildOutDir key ++ ["logs", "build.log"]

/-- The snapshot of the OpenModelica generation directory under
`out_dir/omc_work/`. -/
def snapshotPath (key : String) : FsPath := buildOutDir key ++ ["omc_work", "snapshot"]

/-- The filesystem after `build_fmu` has written `build_info.json` and
started `build.log` (before the compiler runs). -/
def fsAfterLogs (key : String) (fs : FS) : FS :=
  fsWrite (fsWrite fs (buildInfoPath key) []) (buildLogPath key) []

/-- `shutil.copy2(src, dst)` opens the destination at its final path and
streams the source's bytes into it in place: after `k` bytes have been
transferred the destination file already exists and holds the prefix
`content.take k`; the finished copy is the state at `k = content.length`.
There is no temporary destination and no rename. -/
def copy2Progress (fs : FS) (p : FsPath) (content : List Nat) (k : Nat) : FS :=
  fsWrite fs p (content.take k)

/-- Embedding of `build_fmu`: return the cached artifact when the expected
file exists (the cache trusts presence, its contents are not checked);
otherwise write the build metadata/log files, invoke the compiler
(`compileO` transforms the filesystem and raises or returns the generated
FMU's path), fail if it raised or the reported file is absent (appending
failure logs either way), and on a verified complete generation publish
by copying the generated bytes in place onto the expected path —
`shutil.copy2` run to completion — then snapshot the generation directory
and append the success log. -/
def build_fmu (compileO : FS → FS × Except Unit FsPath)
    (moBytes : List Nat) (className fmuType : String) (fs : FS) :
    Except Unit FMUArtifactM × FS :=
  let key := model_artifact_key moBytes className fmuType ""
  let expected := expectedFmuPath moBytes className fmuType
  if (fs expected).isSome then
    (Except.ok ⟨expected, buildOutDir key, key⟩, fs)
  else
    let fsGen := (compileO (fsAfterLogs key fs)).1
    match (compileO (fsAfterLogs key fs)).2 with
    | Except.error _ =>
      (Except.error (), fsWrite fsGen (buildLogPath key) [])
    | Except.ok fmuGen =>
      match fsGen fmuGen with
      | none =>
        (Except.error (), fsWrite fsGen (buildLogPath key) [])
      | some content =>
        (Except.ok ⟨expected, buildOutDir key, key⟩,
         fsWrite (fsWrite (copy2Progress fsGen expected content content.length)
           (snapshotPath key) []) (buildLogPath key) [])

lemma fsWrite_ne (fs : FS) (p q : FsPath) (c : List Nat) (h : q ≠ p) :
    fsWrite fs p c q = fs q := by
  simp [fsWrite, h]

lemma expectedFmuPath_length (moBytes : List Nat) (className fmuType : String) :
    (expectedFmuPath moBytes className fmuType).length = 5 := by
  simp [expectedFmuPath, buildOutDir]

lemma expected_ne_buildInfo (moBytes : List Nat) (className fmuType key : String) :
    expectedFmuPath moBytes className fmuType ≠ buildInfoPath key := by
  intro h
  have hl := congrArg List.length h
  rw [expectedFmuPath_length] at hl
  simp [buildInfoPath, buildOutDir] at hl

lemma expected_ne_buildLog (moBytes : List Nat) (className fmuType key : String) :
    expectedFmuPath moBytes className fmuType ≠ buildLogPath key := by
  intro h
  have hl := congrArg List.length h
  rw [expectedFmuPath_length] at hl
  simp [buildLogPath, buildOutDir] at hl

lemma expected_ne_snapshot (moBytes : List Nat) (className fmuType key : String) :
    expectedFmuPath moBytes className fmuType ≠ snapshotPath key := by
  intro h
  have hl := congrArg List.length h
  rw [expectedFmuPath_length] at hl
  simp [snapshotPath, buildOutDir] at hl

lemma fsAfterLogs_expected (moBytes : List Nat) (className fmuType key : String) (fs : FS) :
    fsAfterLogs key fs (expectedFmuPath moBytes className fmuType) =
      fs (expectedFmuPath moBytes className fmuType) := by
  rw [fsAfterLogs, fsWrite_ne _ _ _ _ (expected_ne_buildLog moBytes className fmuType key),
    fsWrite_ne _ _ _ _ (expected_ne_buildInfo moBytes className fmuType key)]

/-- The filesystem left behind when the process is killed while the
publishing `shutil.copy2` of `build_fmu` is underway, after `k` bytes
were transferred: the run followed the cache-miss path (metadata and log
written, compiler invoked, generated file verified present) and died
inside the in-place copy, so the expected final path already exists and
holds a partial prefix of the artifact. -/
def build_fmu_killed_in_copy (compileO : FS → FS × Except Unit FsPath)
    (moBytes : List Nat) (className fmuType : String) (fs : FS) (k : Nat) : FS :=
  let key := model_artifact_key moBytes className fmuType ""
  let fsGen := (compileO (fsAfterLogs key fs)).1
  match (compileO (fsAfterLogs key fs)).2 with
  | Except.error _ => fsGen
  | Except.ok fmuGen =>
    match fsGen fmuGen with
    | none => fsGen
    | some content =>
      copy2Progress fsGen (expectedFmuPath moBytes className fmuType) content k

/-- C1 (amended): on a cache miss, a compiler failure — a raise, or a
reported file that does not exist — makes `build_fmu` fail and leaves
nothing at the expected final artifact path, so a failed build is never
later taken for a cache hit; a build that runs to completion publishes at
the expected path exactly the complete bytes the compiler generated at
its reported path.  Publication itself, however, is not atomic: it is an
in-place `shutil.copy2` onto the final path, so a process killed after
`k` transferred bytes leaves the prefix `take k` of the artifact at the
expected path — and any file present there, partial or not, makes the
next call return it as an immediate cache hit. -/
theorem C1_compiler_failure_no_partial_artifact :
    ∀ (compileO : FS → FS × Except Unit FsPath) (moBytes : List Nat)
      (className fmuType : String) (fs : FS),
      (∀ g : FS, (compileO g).1 (expectedFmuPath moBytes className fmuType) =
        g (expectedFmuPath moBytes className fmuType)) →
      fs (expectedFmuPath moBytes className fmuType) = none →
      (∀ e fs', build_fmu compileO moBytes className fmuType fs = (Except.error e, fs') →
        fs' (expectedFmuPath moBytes className fmuType) = none) ∧
      (∀ art fs', build_fmu compileO moBytes className fmuType fs = (Except.ok art, fs') →
        art.fmu_path = expectedFmuPath moBytes className fmuType ∧
        ∃ p c,
          (compileO (fsAfterLogs (model_artifact_key moBytes className fmuType "") fs)).2 =
            Except.ok p ∧
          (compileO (fsAfterLogs (model_artifact_key moBytes className fmuType "") fs)).1 p =
            some c ∧
          fs' (expectedFmuPath moBytes className fmuType) = some c) ∧
      (∀ p c k,
        (compileO (fsAfterLogs (model_artifact_key moBytes className fmuType "") fs)).2 =
          Except.ok p →
        (compileO (fsAfterLogs (model_artifact_key moBytes className fmuType "") fs)).1 p =
          some c →
        build_fmu_killed_in_copy compileO moBytes className fmuType fs k
          (expectedFmuPath moBytes className fmuType) = some (c.take k)) ∧
      (∀ g : FS, (g (expectedFmuPath moBytes className fmuType)).isSome = true →
        build_fmu compileO moBytes className fmuType g =
          (Except.ok ⟨expectedFmuPath moBytes className fmuType,
            buildOutDir (model_artifact_key moBytes className fmuType ""),
            model_artifact_key moBytes className fmuType ""⟩, g)) := by
  intro compileO moBytes className fmuType fs hcomp hmiss
  have hGenMiss :
      (compileO (fsAfterLogs (model_artifact_key moBytes className fmuType "") fs)).1
        (expectedFmuPath moBytes className fmuType) = none := by
    rw [hcomp, fsAfterLogs_expected moBytes className fmuType _ fs, hmiss]
  refine ⟨?_, ?_, ?_, ?_⟩
  · intro e fs' heq
    rcases hc : (compileO (fsAfterLogs (model_artifact_key moBytes className fmuType "") fs)).2
      with he | genp
    · have hb : build_fmu compileO moBytes className fmuType fs =
          (Except.error (),
           fsWrite (compileO (fsAfterLogs (model_artifact_key moBytes className fmuType "")
             fs)).1 (buildLogPath (model_artifact_key moBytes className fmuType "")) []) := by
        simp [build_fmu, hmiss, hc]
      rw [hb] at heq
      have hsnd := congrArg Prod.snd heq
      simp only at hsnd
      rw [← hsnd,
        fsWrite_ne _ _ _ _ (expected_ne_buildLog moBytes className fmuType _), hGenMiss]
    · rcases hg : (compileO (fsAfterLogs (model_artifact_key moBytes className fmuType "")
          fs)).1 genp with - | c
      · have hb : build_fmu compileO moBytes className fmuType fs =
            (Except.error (),
             fsWrite (compileO (fsAfterLogs (model_artifact_key moBytes className fmuType "")
               fs)).1 (buildLogPath (model_artifact_key moBytes className fmuType "")) []) := by
          simp [build_fmu, hmiss, hc, hg, copy2Progress]
        rw [hb] at heq
        have hsnd := congrArg Prod.snd heq
        simp only at hsnd
        rw [← hsnd,
          fsWrite_ne _ _ _ _ (expected_ne_buildLog moBytes className fmuType _), hGenMiss]
      · have hb : build_fmu compileO moBytes className fmuType fs =
            (Except.ok ⟨expectedFmuPath moBytes className fmuType,
               buildOutDir (model_artifact_key moBytes className fmuType ""),
               model_artifact_key moBytes className fmuType ""⟩,
             fsWrite (fsWrite (fsWrite
               (compileO (fsAfterLogs (model_artifact_key moBytes className fmuType "") fs)).1
               (expectedFmuPath moBytes className fmuType) c)
               (snapshotPath (model_artifact_key moBytes className fmuType "")) [])
               (buildLogPath (model_artifact_key moBytes className fmuType "")) []) := by
          simp [build_fmu, hmiss, hc, hg, copy2Progress]
        rw [hb] at heq
        have hfst := congrArg Prod.fst heq
        simp only at hfst
        exact absurd hfst (by simp)
  · intro art fs' heq
    rcases hc : (compileO (fsAfterLogs (model_artifact_key moBytes className fmuType "") fs)).2
      with he | genp
    · have hb : build_fmu compileO moBytes className fmuType fs =
          (Except.error (),
           fsWrite (compileO (fsAfterLogs (model_artifact_key moBytes className fmuType "")
             fs)).1 (buildLogPath (model_artifact_key moBytes className fmuType "")) []) := by
        simp [build_fmu, hmiss, hc]
      rw [hb] at heq
      have hfst := congrArg Prod.fst heq
      simp only at hfst
      exact absurd hfst (by simp)
    · rcases hg : (compileO (fsAfterLogs (model_artifact_key moBytes className fmuType "")
          fs)).1 genp with - | c
      · have hb : build_fmu compileO moBytes className fmuType fs =
            (Except.error (),
             fsWrite (compileO (fsAfterLogs (model_artifact_key moBytes className fmuType "")
               fs)).1 (buildLogPath (model_artifact_key moBytes className fmuType "")) []) := by
          simp [build_fmu, hmiss, hc, hg, copy2Progress]
        rw [hb] at heq
        have hfst := congrArg Prod.fst heq
        simp only at hfst
        exact absurd hfst (by simp)
      · have hb : build_fmu compileO moBytes className fmuType fs =
            (Except.ok ⟨expectedFmuPath moBytes className fmuType,
               buildOutDir (model_artifact_key moBytes className fmuType ""),
               model_artifact_key moBytes className fmuType ""⟩,
             fsWrite (fsWrite (fsWrite
               (compileO (fsAfterLogs (model_artifact_key moBytes className fmuType "") fs)).1
               (expectedFmuPath moBytes className fmuType) c)
               (snapshotPath (model_artifact_key moBytes className fmuType "")) [])
               (buildLogPath (model_artifact_key moBytes className fmuType "")) []) := by
          simp [build_fmu, hmiss, hc, hg, copy2Progress]
        rw [hb] at heq
        have hfst := congrArg Prod.fst heq
        have hsnd := congrArg Prod.snd heq
        simp only at hfst hsnd
        have hart : art.fmu_path = expectedFmuPath moBytes className fmuType := by
          rw [← Except.ok.inj hfst]
        refine ⟨hart, genp, c, rfl, hg, ?_⟩
        rw [← hsnd,
          fsWrite_ne _ _ _ _ (expected_ne_buildLog moBytes className fmuType _),
          fsWrite_ne _ _ _ _ (expected_ne_snapshot moBytes className fmuType _)]
        simp [fsWrite]
  · intro p c k hp hcont
    simp [build_fmu_killed_in_copy, hp, hcont, copy2Progress, fsWrite]
  · intro g hsome
    simp [build_fmu, hsome]

/-- A compiler oracle that always raises. -/
def cexFailCompile : FS → FS × Except Unit FsPath := fun g => (g, Except.error ())

/-- Witness for C1: a run of `build_fmu` against an always-failing
compiler on an empty filesystem leaves nothing at the expected artifact
path. -/
theorem C1_compiler_failure_no_partial_artifact_witness :
    (build_fmu cexFailCompile [104] "A.B" "me" (fun _ => none)).2
      (expectedFmuPath [104] "A.B" "me") = none :=
  (C1_compiler_failure_no_partial_artifact cexFailCompile [104] "A.B" "me" (fun _ => none)
      (fun _ => rfl) rfl).1 ()
    (build_fmu cexFailCompile [104] "A.B" "me" (fun _ => none)).2 rfl

/-- A compiler oracle that generates a four-byte FMU at `tmp/gen.fmu`. -/
def cexGenCompile : FS → FS × Except Unit FsPath :=
  fun g => (fsWrite g ["tmp", "gen.fmu"] [1, 2, 3, 4], Except.ok ["tmp", "gen.fmu"])

/-- The filesystem after a build of that FMU, on an empty cache, was
killed when the publishing copy had transferred 2 of the 4 bytes. -/
def cexCrashFs : FS :=
  build_fmu_killed_in_copy cexGenCompile [104] "A.B" "me" (fun _ => none) 2

/-- C1 counterexample: publication is not atomic.  A build killed midway
through the publishing `shutil.copy2` leaves the strict prefix `[1, 2]`
of the four-byte artifact at the expected final path, and a subsequent
`build_fmu` call on that filesystem — here given a compiler that always
fails, so any compiler invocation would surface as an error — returns
the partially written file as an immediate cache hit. -/
theorem C1_nonatomic_publish_counterexample :
    cexCrashFs (expectedFmuPath [104] "A.B" "me") = some [1, 2] ∧
    ([1, 2] : List Nat) ≠ [1, 2, 3, 4] ∧
    build_fmu cexFailCompile [104] "A.B" "me" cexCrashFs =
      (Except.ok ⟨expectedFmuPath [104] "A.B" "me",
        buildOutDir (model_artifact_key [104] "A.B" "me" ""),
        model_artifact_key [104] "A.B" "me" ""⟩, cexCrashFs) := by
  have htake : ([1, 2, 3, 4] : List Nat).take 2 = [1, 2] := rfl
  have h1 : cexCrashFs (expectedFmuPath [104] "A.B" "me") = some [1, 2] := by
    simp [cexCrashFs, build_fmu_killed_in_copy, cexGenCompile, copy2Progress, fsWrite, htake]
  refine ⟨h1, by decide, ?_⟩
  simp [build_fmu, h1]

/-! ## fmpy master loop and run driver
(`deprecated/rover_closed_loop_fmu_fmpy.py`, `run_rover_cosim_fmpy`;
`runners/run.py`, `run_from_scenario`)

`run_from_scenario` drives `run_rover_cosim_fmpy`, whose simulation loop
steps webserver, controller and rover in a fixed order each iteration and
whose `finally` block terminates and frees every component on every exit
path.  A doStep call that raises (fmpy raises on an fmi2Error status) is
an oracle decision per component and step index; signal relays do not
affect teardown or output and their values are elided here. -/

/-- The three co-simulated components. -/
inductive Comp where
  | rover
  | ctrl
  | web
deriving DecidableEq, Repr

/-- Calls the fmpy driver issues to its FMUs. -/
inductive FmpyEv where
  | doStepEv (c : Comp) (idx : Nat)
  | terminateEv (c : Comp)
  | freeEv (c : Comp)
deriving DecidableEq, Repr

/-- The `while t < tf - 1e-12` loop of `run_rover_cosim_fmpy`, by
remaining iteration count: each iteration issues `doStep` to webserver,
then controller, then rover; a raise aborts the loop; a completed
iteration appends one output row (stamped by its step index). -/
def fmpyLoop (stepRaises : Comp → Nat → Bool) : Nat → Nat → Except Unit (List Nat) × List FmpyEv
  | 0, _ => (Except.ok [], [])
  | Nat.succ fuel, k =>
    let evW := [FmpyEv.doStepEv Comp.web k]
    if stepRaises Comp.web k then (Except.error (), evW)
    else
      let evC := evW ++ [FmpyEv.doStepEv Comp.ctrl k]
      if stepRaises Comp.ctrl k then (Except.error (), evC)
      else
        let evR := evC ++ [FmpyEv.doStepEv Comp.rover k]
        if stepRaises Comp.rover k then (Except.error (), evR)
        else
          let rest := fmpyLoop stepRaises fuel (k + 1)
          (match rest.1 with
           | Except.ok rows => Except.ok (k :: rows)
           | Except.error e => Except.error e,
           evR ++ rest.2)

/-- The teardown the `finally` block always performs: `terminate()` then
`freeInstance()` on rover, controller and webserver, each wrapped in
`try/except` so that teardown itself never raises. -/
def fmpyTeardown : List FmpyEv :=
  [FmpyEv.terminateEv Comp.rover, FmpyEv.freeEv Comp.rover,
   FmpyEv.terminateEv Comp.ctrl, FmpyEv.freeEv Comp.ctrl,
   FmpyEv.terminateEv Comp.web, FmpyEv.freeEv Comp.web]

/-- Embedding of `run_rover_cosim_fmpy`: run the loop; whatever its
outcome, the `finally` teardown events follow. -/
def run_rover_cosim_fmpy (stepRaises : Comp → Nat → Bool) (nIter : Nat) :
    Except Unit (List Nat) × List FmpyEv :=
  let r := fmpyLoop stepRaises nIter 0
  (r.1, r.2 ++ fmpyTeardown)

/-- Embedding of `run_from_scenario`: invoke the fmpy driver and, only
when it returns rows, write the output file at the run's final path (the
first component is that file's contents; `none` means no file exists). -/
def run_from_scenario (stepRaises : Comp → Nat → Bool) (nIter : Nat) :
    Option (List Nat) × List FmpyEv :=
  match run_rover_cosim_fmpy stepRaises nIter with
  | (Except.ok rows, ev) => (some rows, ev)
  | (Except.error _, ev) => (none, ev)

/-- C6: whatever the step oracle does — in particular when a component's
doStep raises partway through the run — `terminate()` and `free()` are
invoked on every component, and if the run aborted with an error the run
driver writes no output file at the run's designated final path. -/
theorem C6_teardown_and_no_output_on_step_error :
    ∀ (stepRaises : Comp → Nat → Bool) (nIter : Nat),
      (∀ c : Comp, FmpyEv.terminateEv c ∈ (run_rover_cosim_fmpy stepRaises nIter).2 ∧
        FmpyEv.freeEv c ∈ (run_rover_cosim_fmpy stepRaises nIter).2) ∧
      (∀ e, (run_rover_cosim_fmpy stepRaises nIter).1 = Except.error e →
        (run_from_scenario stepRaises nIter).1 = none) := by
  intro stepRaises nIter
  constructor
  · intro c
    constructor
    · show FmpyEv.terminateEv c ∈ (fmpyLoop stepRaises nIter 0).2 ++ fmpyTeardown
      refine List.mem_append_right _ ?_
      cases c <;> simp [fmpyTeardown]
    · show FmpyEv.freeEv c ∈ (fmpyLoop stepRaises nIter 0).2 ++ fmpyTeardown
      refine List.mem_append_right _ ?_
      cases c <;> simp [fmpyTeardown]
  · intro e herr
    rw [run_from_scenario]
    have : run_rover_cosim_fmpy stepRaises nIter =
        (Except.error e, (run_rover_cosim_fmpy stepRaises nIter).2) := by
      rw [← herr]
    rw [this]

/-- The failing oracle of the specification's example: the rover's doStep
raises on step index 4 — step 5 of a 10-step run. -/
def cexStepRaisesAt5 : Comp → Nat → Bool := fun c k => c = Comp.rover ∧ k = 4

/-- Witness for C6: in the 10-step run whose rover fails on step 5, every
component is terminated and freed, and no output file is written. -/
theorem C6_teardown_and_no_output_on_step_error_witness :
    (FmpyEv.terminateEv Comp.rover ∈ (run_rover_cosim_fmpy cexStepRaisesAt5 10).2 ∧
      FmpyEv.freeEv Comp.rover ∈ (run_rover_cosim_fmpy cexStepRaisesAt5 10).2) ∧
    (run_from_scenario cexStepRaisesAt5 10).1 = none :=
  ⟨(C6_teardown_and_no_output_on_step_error cexStepRaisesAt5 10).1 Comp.rover,
   (C6_teardown_and_no_output_on_step_error cexStepRaisesAt5 10).2 () rfl⟩
